import Mathlib

/-!
# Verification of the ImmichVR AI service

A shallow embedding, in Lean 4, of the core of the ImmichVR AI service
(`src/services/ai`): the stereo synthesis pipeline
(`app/services/stereo_service.py`, `app/services/depth_service.py`),
the depth-model resource manager (`app/models/depth_model.py`) and the
batched SBS video loop (`app/services/video_service.py`), together with
theorems settling the specification's claims about them.

Conventions:
* images (frames, depth maps) are `List (List ℚ)`, row-major, one rational
  per pixel (a single channel; the Python code applies the same arithmetic
  independently per channel);
* machine floats are modelled as exact rationals;
* wall-clock times (`time.time()`) are rationals, in seconds.
-/

/-- An image: a list of rows, each row a list of pixel values. -/
abbrev Img : Type := List (List ℚ)

/-- Number of rows (`shape[0]`). -/
def imgH (f : Img) : Nat := f.length

/-- Number of columns of the first row (`shape[1]` for a rectangular array). -/
def imgW (f : Img) : Nat := (f.headD []).length

/-- `f` is a rectangular `h × w` array. -/
def rectangular (f : Img) (h w : Nat) : Prop :=
  f.length = h ∧ ∀ row ∈ f, row.length = w

/-- Pixel lookup `f[y][x]`, defaulting to `0` out of range. -/
def pixel (f : Img) (y x : Nat) : ℚ := (f.getD y []).getD x 0

/-- OpenCV `BORDER_REFLECT_101` index folding for an axis of length `n`:
the pattern `... c b | a b c | b a ...` — the border pixel is not doubled.
Out-of-range integer tap coordinates are folded back into `[0, n-1]`
with period `2*(n-1)`. -/
def reflect101 (n : Nat) (i : Int) : Nat :=
  if n ≤ 1 then 0
  else
    let j := (i % (2 * ((n : Int) - 1))).toNat
    if j ≤ n - 1 then j else 2 * (n - 1) - j

/-- Pixel lookup at integer tap coordinates with `BORDER_REFLECT_101`
boundary handling on both axes. -/
def pixelR (f : Img) (y x : Int) : ℚ :=
  pixel f (reflect101 (imgH f) y) (reflect101 (imgW f) x)

/-- Bilinear sampling (`cv2.INTER_LINEAR`) of `f` at the (sub-pixel)
coordinate `(x, y)`, with `BORDER_REFLECT_101` applied to each of the
four integer taps. -/
def bilinearSample (f : Img) (x y : ℚ) : ℚ :=
  (1 - (y - ⌊y⌋)) * ((1 - (x - ⌊x⌋)) * pixelR f ⌊y⌋ ⌊x⌋ +
      (x - ⌊x⌋) * pixelR f ⌊y⌋ (⌊x⌋ + 1)) +
    (y - ⌊y⌋) * ((1 - (x - ⌊x⌋)) * pixelR f (⌊y⌋ + 1) ⌊x⌋ +
      (x - ⌊x⌋) * pixelR f (⌊y⌋ + 1) (⌊x⌋ + 1))

/-- `stereo_service.generate_stereo_pair_vectorized`, displacement field:
`displacement = (1.0 - depth_map/255.0) * divergence` at pixel `(y, x)`. -/
def displacementAt (depth_map : Img) (divergence : ℚ) (y x : Nat) : ℚ :=
  (1 - pixel depth_map y x / 255) * divergence

/-- `stereo_service.generate_stereo_pair_vectorized`: builds the left/right
eye views by remapping the frame at `x + displacement` (left) and
`x - displacement` (right), vertical coordinate unchanged, with bilinear
interpolation and `BORDER_REFLECT_101`. -/
def generate_stereo_pair_vectorized (frame depth_map : Img) (divergence : ℚ) :
    Img × Img :=
  let height := imgH frame
  let width := imgW frame
  let left_eye := (List.range height).map fun (y : Nat) =>
    (List.range width).map fun (x : Nat) =>
      bilinearSample frame ((x : ℚ) + displacementAt depth_map divergence y x) (y : ℚ)
  let right_eye := (List.range height).map fun (y : Nat) =>
    (List.range width).map fun (x : Nat) =>
      bilinearSample frame ((x : ℚ) - displacementAt depth_map divergence y x) (y : ℚ)
  (left_eye, right_eye)

/-- Integer tap clamped to `[0, n-1]` (border replication, as used by
`cv2.resize` at image borders). -/
def clampIdx (n : Nat) (i : Int) : Nat := min (i.toNat) (n - 1)

/-- Bilinear sampling with clamped (replicated) borders, the tap handling
of `cv2.resize(..., interpolation=cv2.INTER_LINEAR)`. -/
def pixelC (f : Img) (y x : Int) : ℚ :=
  pixel f (clampIdx (imgH f) y) (clampIdx (imgW f) x)

def bilinearClampSample (f : Img) (x y : ℚ) : ℚ :=
  (1 - (y - ⌊y⌋)) * ((1 - (x - ⌊x⌋)) * pixelC f ⌊y⌋ ⌊x⌋ +
      (x - ⌊x⌋) * pixelC f ⌊y⌋ (⌊x⌋ + 1)) +
    (y - ⌊y⌋) * ((1 - (x - ⌊x⌋)) * pixelC f (⌊y⌋ + 1) ⌊x⌋ +
      (x - ⌊x⌋) * pixelC f (⌊y⌋ + 1) (⌊x⌋ + 1))

/-- `cv2.resize(img, (newW, newH), interpolation=cv2.INTER_LINEAR)`:
the output has exactly `newH` rows of `newW` pixels; source coordinates
follow OpenCV's half-pixel-centre convention
`src = (dst + 1/2) * (srcLen / dstLen) - 1/2`. -/
def cvResize (img : Img) (newW newH : Nat) : Img :=
  let h := imgH img
  let w := imgW img
  (List.range newH).map fun (y : Nat) =>
    (List.range newW).map fun (x : Nat) =>
      bilinearClampSample img (((x : ℚ) + 1 / 2) * ((w : ℚ) / (newW : ℚ)) - 1 / 2)
        (((y : ℚ) + 1 / 2) * ((h : ℚ) / (newH : ℚ)) - 1 / 2)

/-- `np.hstack` on two images of equal height: row-wise concatenation. -/
def hstack (a b : Img) : Img := List.zipWith (· ++ ·) a b

/-- `stereo_service.compose_sbs_frame`: `SBS_HALF` scales each eye to
`width // 2` and concatenates; anything else (`SBS_FULL`) concatenates at
full resolution. -/
def compose_sbs_frame (left_eye right_eye : Img) (sbs_format : String) : Img :=
  if sbs_format = "SBS_HALF" then
    let height := imgH left_eye
    let half_width := imgW left_eye / 2
    let left_scaled := cvResize left_eye half_width height
    let right_scaled := cvResize right_eye half_width height
    hstack left_scaled right_scaled
  else
    hstack left_eye right_eye

/-- Minimum of all entries of an image (`depth_array.min()`); `0` for an
empty image (NumPy would raise, the pipeline never passes one). -/
def imgMin (f : Img) : ℚ := (f.flatten.min?).getD 0

/-- Maximum of all entries of an image (`depth_array.max()`). -/
def imgMax (f : Img) : ℚ := (f.flatten.max?).getD 0

/-- `depth_service.process_frame_depth`, post-prediction normalization:
the backend's raw depth array is rescaled to `0–255`; a (near-)uniform
array — `max - min < 1e-10` — becomes the constant `128` array; otherwise
each value maps to `⌊(v - min) / (max - min) * 255⌋` (`astype(np.uint8)`
truncates). -/
def process_frame_depth (depth_array : Img) : Img :=
  let depth_min := imgMin depth_array
  let depth_max := imgMax depth_array
  if depth_max - depth_min < 1 / 10 ^ 10 then
    depth_array.map fun row => row.map fun _ => (128 : ℚ)
  else
    depth_array.map fun row => row.map fun v =>
      ((⌊(v - depth_min) / (depth_max - depth_min) * 255⌋ : Int) : ℚ)

/-! ## The depth-model resource manager (`app/models/depth_model.py`) -/

/-- Concrete compute device. The Python code stores `-1` (CPU), `0`
(CUDA device 0) or the string `"mps"` (Apple Silicon) in `self.device`;
we model that loosely-typed field as a closed inductive. -/
inductive Device
  | cpu
  | cuda
  | mps
deriving DecidableEq, Repr

/-- `current_device_is_gpu` from `DepthModel.initialize`:
`self.device != -1 and self.device != "cpu"` — true exactly for the CUDA
and MPS devices. -/
def deviceIsGpu : Device → Bool
  | .cpu => false
  | .cuda => true
  | .mps => true

/-- A resident pipeline instance. `gen` is a freshness tag modelling
Python object identity (each `pipeline(...)` instantiation yields a new
object); `key` is the model key the instance was built for. -/
structure Resident where
  gen : Nat
  key : String
deriving DecidableEq, Repr

/-- The manager's process environment: the `MOCK_DOWNLOADS` flag, the
results of the `torch.cuda.is_available()` / `torch.backends.mps.is_available()`
probes, whether `transformers.pipeline(...)` instantiation succeeds, and
which catalog keys the Hugging Face disk-cache scan reports as present. -/
structure Env where
  mockDownloads : Bool
  cudaAvailable : Bool
  mpsAvailable : Bool
  backendOk : Bool
  diskDownloaded : List String
deriving DecidableEq, Repr

/-- Mutable state of a `DepthModel` manager instance. -/
structure DMState where
  pipeline : Option Resident
  device : Device
  current_model_key : Option String
  mock_downloaded : List String
  last_used : ℚ
  timeout_minutes : ℚ
  nextGen : Nat
deriving DecidableEq, Repr

/-- Keys of `Config.AVAILABLE_MODELS` (`app/config.py`). -/
def availableModels : List String := ["small", "base", "large"]

/-- `Config.DEFAULT_MODEL` (environment fallback `"small"`). -/
def defaultModel : String := "small"

/-- Python `model_key or Config.DEFAULT_MODEL`: `None` and the empty
string (both falsy) give the default. -/
def orDefaultKey (model_key : Option String) : String :=
  match model_key with
  | none => defaultModel
  | some k => if k = "" then defaultModel else k

/-- Python truthiness of an `Optional[str]`. -/
def keyTruthy (model_key : Option String) : Bool :=
  match model_key with
  | none => false
  | some k => k ≠ ""

/-- `DepthModel.__init__`: no pipeline, device `-1`, no current key,
`last_used = 0`, `timeout_minutes = 30`. -/
def DMState.initial : DMState :=
  { pipeline := none, device := .cpu, current_model_key := none,
    mock_downloaded := [], last_used := 0, timeout_minutes := 30, nextGen := 0 }

/-- `DepthModel._unload_current_model`: if a pipeline is resident, drop it
and clear the current key (the gc / CUDA / MPS cache clearing is a pure
side effect). -/
def unload_current_model (s : DMState) : DMState :=
  if s.pipeline.isSome then
    { s with pipeline := none, current_model_key := none }
  else s

/-- Device resolution from `DepthModel.initialize` (lines 108–126):
`'cpu'` forces CPU; otherwise (`'auto'` or `'gpu'`) CUDA if available,
else MPS if available, else CPU (with only a logged warning when `'gpu'`
was requested). -/
def targetDevice (device_type : String) (cudaAvailable mpsAvailable : Bool) :
    Device :=
  if device_type = "cpu" then .cpu
  else if cudaAvailable then .cuda
  else if mpsAvailable then .mps
  else .cpu

/-- `DepthModel.initialize(model_key, device_type)`. Returns the Python
result (`True` on success) and the post-state. Steps, in source order:
refresh `last_used`; default the key; fail on a key outside the catalog;
no-op when already loaded with the same key on a compatible device
(reload instead when `'cpu'` is requested on a GPU device, or `'gpu'` is
requested on a non-GPU device); otherwise unload any resident pipeline,
then in mock mode build a fake pipeline on CPU, and in real mode resolve
the device and instantiate the backend — an instantiation throw resets
`_pipeline` and `current_model_key` to `None` and returns `False`. -/
def DepthModel.initModel (env : Env) (s : DMState) (now : ℚ)
    (model_key : Option String) (device_type : String) : Bool × DMState :=
  let s := { s with last_used := now }
  let key := orDefaultKey model_key
  if key ∉ availableModels then (false, s)
  else if s.pipeline.isSome ∧ s.current_model_key = some key ∧
      ¬(device_type = "cpu" ∧ deviceIsGpu s.device = true) ∧
      ¬(device_type = "gpu" ∧ deviceIsGpu s.device = false) then
    (true, s)
  else
    let s := unload_current_model s
    if env.mockDownloads then
      (true, { s with device := .cpu,
                      pipeline := some ⟨s.nextGen, key⟩,
                      nextGen := s.nextGen + 1,
                      current_model_key := some key,
                      mock_downloaded :=
                        if key ∈ s.mock_downloaded then s.mock_downloaded
                        else s.mock_downloaded ++ [key] })
    else
      let dev := targetDevice device_type env.cudaAvailable env.mpsAvailable
      let s := { s with device := dev }
      if env.backendOk then
        (true, { s with pipeline := some ⟨s.nextGen, key⟩,
                        nextGen := s.nextGen + 1,
                        current_model_key := some key })
      else
        (false, { s with pipeline := none, current_model_key := none })

/-- `DepthModel.switch_model(model_key, device_type)`: refresh `last_used`
and delegate to `initialize`. -/
def DepthModel.switch_model (env : Env) (s : DMState) (now : ℚ)
    (model_key : String) (device_type : String := "auto") : Bool × DMState :=
  DepthModel.initModel env { s with last_used := now } now (some model_key)
    device_type

/-- One pass of the idle-monitor body (`monitor_loop`, lines 41–47):
if a pipeline is resident and `(now - last_used) / 60 > timeout_minutes`,
unload; otherwise leave the state unchanged, then sleep
`monitorIntervalSeconds`. -/
def monitor_tick (s : DMState) (now : ℚ) : DMState :=
  if s.pipeline.isSome then
    if (now - s.last_used) / 60 > s.timeout_minutes then
      unload_current_model s
    else s
  else s

/-- `time.sleep(60)` between monitor passes. -/
def monitorIntervalSeconds : Nat := 60

/-- Calling the resident pipeline object on an image: the mock pipeline
(built under `MOCK_DOWNLOADS`) computes `mockResult`, a real pipeline
runs the backend for the key it was instantiated with. -/
def callPipeline {Image R : Type} (env : Env) (infer : String → Image → R)
    (mockResult : Image → R) (r : Resident) (image : Image) : R :=
  if env.mockDownloads then mockResult image else infer r.key image

/-- The tail of `DepthModel.predict` (lines 261–264): raise if `_pipeline`
is `None`, else call it. -/
def finishPredict {Image R : Type} (env : Env) (infer : String → Image → R)
    (mockResult : Image → R) (s : DMState) (image : Image) :
    Except String R × DMState :=
  match s.pipeline with
  | none => (.error "Model initialization failed unexpectedly", s)
  | some r => (.ok (callPipeline env infer mockResult r image), s)

/-- `DepthModel.predict(image, model_key)`: refresh `last_used`; if
unloaded, auto-call `initialize(model_key)` and raise on failure; else if
a truthy key differing from the current one is given, `switch_model` and
raise on failure; finally call the resident pipeline. -/
def DepthModel.predict {Image R : Type} (env : Env)
    (infer : String → Image → R) (mockResult : Image → R) (s : DMState)
    (now : ℚ) (image : Image) (model_key : Option String) :
    Except String R × DMState :=
  let s1 : DMState := { s with last_used := now }
  if s1.pipeline.isNone then
    let r := DepthModel.initModel env s1 now model_key "auto"
    if r.1 then finishPredict env infer mockResult r.2 image
    else (.error ("Failed to auto-initialize model: " ++ orDefaultKey model_key),
          r.2)
  else if keyTruthy model_key ∧ model_key ≠ s1.current_model_key then
    let r := DepthModel.switch_model env s1 now (orDefaultKey model_key)
    if r.1 then finishPredict env infer mockResult r.2 image
    else (.error ("Failed to switch to model: " ++ orDefaultKey model_key), r.2)
  else
    finishPredict env infer mockResult s1 image

/-- `DepthModel._get_downloaded_models`: in mock mode, the mock-download
set plus the current key; in real mode, the catalog keys the disk-cache
probe reports, plus the current key (a resident model is always reported
downloaded); both deduplicated and sorted. -/
def get_downloaded_models (env : Env) (s : DMState) : List String :=
  if env.mockDownloads then
    let downloaded := s.mock_downloaded
    let downloaded :=
      match s.current_model_key with
      | some k => if k ∈ downloaded then downloaded else downloaded ++ [k]
      | none => downloaded
    downloaded.mergeSort (fun a b => decide (a ≤ b))
  else
    let downloaded := env.diskDownloaded.filter (· ∈ availableModels)
    let downloaded :=
      match s.current_model_key with
      | some k => if k ∈ downloaded then downloaded else downloaded ++ [k]
      | none => downloaded
    (downloaded.dedup).mergeSort (fun a b => decide (a ≤ b))

/-- `DepthModel.delete_model(model_key)`: unload first when the key names
the resident model; in mock mode remove it from the mock-download set; in
real mode the on-disk deletion is an unimplemented stub — return `True`
without touching the cache. -/
def DepthModel.delete_model (env : Env) (s : DMState) (model_key : String) :
    Bool × DMState :=
  let s := if s.current_model_key = some model_key then unload_current_model s
           else s
  if env.mockDownloads then
    (true, { s with mock_downloaded := s.mock_downloaded.erase model_key })
  else
    (true, s)

/-! ## Batched SBS processing (`app/services/video_service.py`) -/

/-- Number of iterations of `for batch_start in range(0, total_frames,
batch_size)` (with `batch_size > 0`): `⌈total / batch_size⌉`. -/
def numWindows (total batch_size : Nat) : Nat :=
  (total + batch_size - 1) / batch_size

/-- The values taken by `batch_start` in
`range(0, total_frames, batch_size)`. -/
def batchStarts (total batch_size : Nat) : List Nat :=
  (List.range (numWindows total batch_size)).map (· * batch_size)

/-- The `BatchWindow`s of `VideoService.process_sbs_video`: for each
`batch_start`, the frame indices
`batch_start, …, min (batch_start + batch_size) total - 1`
(the slice `frame_files[batch_start:batch_end]`). -/
def batchWindows (total batch_size : Nat) : List (List Nat) :=
  (batchStarts total batch_size).map fun batch_start =>
    (List.range (min (batch_start + batch_size) total - batch_start)).map
      (batch_start + ·)

/-- Observable events of the batching loop: processing of a single frame
(depth, stereo pair, SBS composition, write), or one
`torch.cuda.empty_cache()` memory-reclamation call. -/
inductive BatchEvent
  | process (i : Nat)
  | reclaim
deriving DecidableEq, Repr

/-- Event trace of the batching loop of `process_sbs_video` (lines
120–140): windows run sequentially; within a window the frames are
processed in slice order; after each window the reclamation call runs,
but only when `torch.cuda.is_available()`. -/
def processSbsTrace (total batch_size : Nat) (cudaAvailable : Bool) :
    List BatchEvent :=
  ((batchWindows total batch_size).map fun window =>
    window.map BatchEvent.process ++ if cudaAvailable then [.reclaim] else []).flatten

/-! ## The unguarded idle monitor racing a `predict` call

`DepthModel` starts a daemon thread (`_start_monitor`) whose loop reads
and mutates `self._pipeline` with no lock; `predict` reads the same field
at its check on line 261 and dereferences it again on line 264. We model
the two threads' interleavings on the shared `DMState`: `predict` (in the
already-loaded, no-switch path) is split at its line-261/264 boundary
into two atomic steps, between which a monitor pass may run. -/

/-- First half of a loaded-path `predict` (lines 248–261): refresh
`last_used` and pass the `_pipeline is None` checks. Returns `none`
when the checks raise (manager unloaded). -/
def predictBegin (s : DMState) (now : ℚ) : Option DMState :=
  let s1 : DMState := { s with last_used := now }
  if s1.pipeline.isSome then some s1 else none

/-- Second half of `predict` (line 264): `self._pipeline(image)`. The
re-read of `_pipeline` happens here; if another thread has cleared it in
the meantime, Python calls `None` — a `TypeError` crash, modelled as
`none`. -/
def predictFinish (s : DMState) : Option Resident := s.pipeline

/-! ## Helper lemmas -/

/-- `BORDER_REFLECT_101` folding is the identity on in-range coordinates. -/
theorem reflect101_natCast_of_lt {n i : Nat} (h : i < n) :
    reflect101 n (i : Int) = i := by
  unfold reflect101
  rcases Nat.lt_or_ge n 2 with hn | hn
  · have hi : i = 0 := by omega
    have hn1 : n ≤ 1 := by omega
    simp [hi, hn1]
  · have hn1 : ¬ n ≤ 1 := by omega
    have hpos : (0 : Int) ≤ (i : Int) := Int.natCast_nonneg i
    have hlt : (i : Int) < 2 * ((n : Int) - 1) := by
      have : (i : Int) < n := by exact_mod_cast h
      omega
    have hmod : (i : Int) % (2 * ((n : Int) - 1)) = (i : Int) :=
      Int.emod_eq_of_lt hpos hlt
    have hle : i ≤ n - 1 := by omega
    simp [hn1, hmod, hle]

/-- Bilinear sampling at exact integer in-range coordinates returns the
pixel itself. -/
theorem bilinearSample_natCast (f : Img) (y x : Nat)
    (hy : y < imgH f) (hx : x < imgW f) :
    bilinearSample f (x : ℚ) (y : ℚ) = pixel f y x := by
  unfold bilinearSample
  have hfx : ⌊(x : ℚ)⌋ = (x : Int) := Int.floor_natCast x
  have hfy : ⌊(y : ℚ)⌋ = (y : Int) := Int.floor_natCast y
  rw [hfx, hfy]
  have hx0 : (x : ℚ) - ((x : Int) : ℚ) = 0 := by push_cast; ring
  have hy0 : (y : ℚ) - ((y : Int) : ℚ) = 0 := by push_cast; ring
  rw [hx0, hy0]
  have hpr : pixelR f (y : Int) (x : Int) = pixel f y x := by
    unfold pixelR
    rw [reflect101_natCast_of_lt hy, reflect101_natCast_of_lt hx]
  rw [hpr]
  ring

/-- Rows of `hstack a b` have length `w1 + w2` when rows of `a` have
length `w1` and rows of `b` have length `w2`. -/
theorem hstack_row_length {a b : Img} {w1 w2 : Nat}
    (ha : ∀ r ∈ a, r.length = w1) (hb : ∀ r ∈ b, r.length = w2) :
    ∀ row ∈ hstack a b, row.length = w1 + w2 := by
  induction a generalizing b with
  | nil => intro row hrow; simp [hstack] at hrow
  | cons x xs ih =>
    intro row hrow
    cases b with
    | nil => simp [hstack] at hrow
    | cons y ys =>
      simp only [hstack, List.zipWith_cons_cons, List.mem_cons] at hrow
      rcases hrow with rfl | hrow
      · rw [List.length_append, ha x (List.mem_cons_self _ _),
          hb y (List.mem_cons_self _ _)]
      · exact ih (fun r hr => ha r (List.mem_cons_of_mem _ hr))
          (fun r hr => hb r (List.mem_cons_of_mem _ hr)) row hrow

/-- Every row of `cvResize img newW newH` has length `newW`. -/
theorem cvResize_row_length (img : Img) (newW newH : Nat) :
    ∀ row ∈ cvResize img newW newH, row.length = newW := by
  intro row hrow
  unfold cvResize at hrow
  obtain ⟨y, -, rfl⟩ := List.mem_map.mp hrow
  simp only [List.length_map, List.length_range]

/-! ## Claims -/

/-- C3: for every device preference in `{auto, cpu, gpu}` and every
CUDA/MPS availability combination, device resolution is total and follows
the fallback order: `cpu` resolves to CPU; otherwise CUDA-GPU when CUDA is
available, else Apple-GPU when MPS is available, else CPU. -/
theorem C3_device_resolution (device_type : String)
    (hp : device_type = "auto" ∨ device_type = "cpu" ∨ device_type = "gpu")
    (cuda mps : Bool) :
    (device_type = "cpu" → targetDevice device_type cuda mps = .cpu) ∧
    (device_type ≠ "cpu" → targetDevice device_type cuda mps =
      if cuda then .cuda else if mps then .mps else .cpu) := by
  constructor
  · intro h; simp [targetDevice, h]
  · intro h; simp [targetDevice, h]

/-- Witness for C3: an explicit `gpu` request with neither CUDA nor MPS
available resolves to CPU, not an error. -/
theorem C3_device_resolution_witness :
    ("gpu" = "auto" ∨ "gpu" = "cpu" ∨ "gpu" = "gpu") ∧
    (("gpu" : String) = "cpu" → targetDevice "gpu" false false = .cpu) ∧
    (("gpu" : String) ≠ "cpu" → targetDevice "gpu" false false =
      if false then .cuda else if false then .mps else .cpu) :=
  ⟨by decide, C3_device_resolution "gpu" (by decide) false false⟩

/-- C7: a monitor pass unloads exactly when a pipeline is resident and
the elapsed idle time strictly exceeds `timeout_minutes` (default 30
minutes, checked every `monitorIntervalSeconds = 60` seconds); it leaves
the state unchanged when nothing is resident or the idle time is within
the timeout. -/
theorem C7_idle_monitor (s : DMState) (now : ℚ) :
    (s.pipeline.isSome →
      (now - s.last_used) / 60 > s.timeout_minutes →
        monitor_tick s now = unload_current_model s ∧
        (monitor_tick s now).pipeline = none) ∧
    (s.pipeline = none → monitor_tick s now = s) ∧
    (s.pipeline.isSome → (now - s.last_used) / 60 ≤ s.timeout_minutes →
      monitor_tick s now = s) ∧
    DMState.initial.timeout_minutes = 30 ∧ monitorIntervalSeconds = 60 := by
  refine ⟨?_, ?_, ?_, rfl, rfl⟩
  · intro h1 h2
    constructor
    · simp [monitor_tick, h1, h2]
    · simp [monitor_tick, unload_current_model, h1, h2]
  · intro h1; simp [monitor_tick, h1]
  · intro h1 h2; simp [monitor_tick, h1, not_lt.mpr h2]

/-- Witness for C7: a model loaded at time 0 and idle for 31 minutes is
unloaded by the monitor pass at `now = 1860` s. -/
theorem C7_idle_monitor_witness :
    monitor_tick { DMState.initial with
        pipeline := some ⟨0, "small"⟩
        current_model_key := some "small" } 1860 =
      unload_current_model { DMState.initial with
        pipeline := some ⟨0, "small"⟩
        current_model_key := some "small" } ∧
    (monitor_tick { DMState.initial with
        pipeline := some ⟨0, "small"⟩
        current_model_key := some "small" } 1860).pipeline = none :=
  (C7_idle_monitor _ 1860).1 (by decide) (by norm_num [DMState.initial])

/-- C10: in non-mock mode, `delete_model` on a known key returns `True`
without touching the on-disk cache (the disk deletion is a stub): every
key the disk probe reports — the deleted one included — is still reported
downloaded afterwards; and the manager is never left `Loaded` with the
deleted key (a resident instance under that key is unloaded first). -/
theorem C10_delete_model (env : Env) (s : DMState) (model_key : String)
    (hk : model_key ∈ availableModels) (hmock : env.mockDownloads = false) :
    (DepthModel.delete_model env s model_key).1 = true ∧
    ¬((DepthModel.delete_model env s model_key).2.pipeline.isSome = true ∧
      (DepthModel.delete_model env s model_key).2.current_model_key =
        some model_key) ∧
    (s.current_model_key = some model_key → s.pipeline.isSome = true →
      (DepthModel.delete_model env s model_key).2.pipeline = none) ∧
    (∀ k ∈ env.diskDownloaded, k ∈ availableModels →
      k ∈ get_downloaded_models env (DepthModel.delete_model env s model_key).2) := by
  have hstate : (DepthModel.delete_model env s model_key).2 =
      if s.current_model_key = some model_key then unload_current_model s
      else s := by
    simp [DepthModel.delete_model, hmock]
  refine ⟨by simp [DepthModel.delete_model, hmock], ?_, ?_, ?_⟩
  · rw [hstate]
    by_cases hc : s.current_model_key = some model_key
    · simp only [hc, if_true]
      unfold unload_current_model
      by_cases hp : s.pipeline.isSome
      · simp [hp]
      · simp only [hp, if_false]
        rintro ⟨h1, -⟩
        exact hp h1
    · simp only [hc, if_false]
      rintro ⟨-, h2⟩
      exact h2
  · intro hc hp
    rw [hstate]
    simp [hc, unload_current_model, hp]
  · intro k hk1 hk2
    rw [hstate]
    have hmem : ∀ t : DMState,
        k ∈ env.diskDownloaded.filter (· ∈ availableModels) →
        k ∈ get_downloaded_models env t := by
      intro t hkf
      unfold get_downloaded_models
      simp only [hmock, Bool.false_eq_true, if_false, List.mem_mergeSort,
        List.mem_dedup]
      cases t.current_model_key with
      | none => exact hkf
      | some c =>
        by_cases hcd : c ∈ env.diskDownloaded.filter (· ∈ availableModels)
        · simp only [hcd, if_true]; exact hkf
        · simp only [hcd, if_false]
          exact List.mem_append_left _ hkf
    have hkf : k ∈ env.diskDownloaded.filter (· ∈ availableModels) := by
      simp [List.mem_filter, hk1, hk2]
    split <;> exact hmem _ hkf

/-- Witness for C10: deleting the resident `"small"` model in non-mock
mode succeeds, unloads it, and a later status probe still reports it
downloaded from disk. -/
theorem C10_delete_model_witness :
    ("small" ∈ availableModels) ∧
    (DepthModel.delete_model ⟨false, false, false, true, ["base", "small"]⟩
      { DMState.initial with
        pipeline := some ⟨0, "small"⟩
        current_model_key := some "small" } "small").1 = true ∧
    ("small" ∈ get_downloaded_models ⟨false, false, false, true, ["base", "small"]⟩
      (DepthModel.delete_model ⟨false, false, false, true, ["base", "small"]⟩
        { DMState.initial with
          pipeline := some ⟨0, "small"⟩
          current_model_key := some "small" } "small").2) := by
  have h := C10_delete_model ⟨false, false, false, true, ["base", "small"]⟩
    { DMState.initial with
      pipeline := some ⟨0, "small"⟩
      current_model_key := some "small" } "small" (by decide) rfl
  exact ⟨by decide, h.1, h.2.2.2 "small" (by decide) (by decide)⟩

/-- C6 counterexample: requesting the unknown key `"bogus"` at time 5 on
a freshly constructed manager fails fast, but `last_used` — which the
code refreshes before the catalog check — *is* mutated, contradicting
"mutates no manager state (… lastUsedAt all unchanged)". -/
theorem C6_counterexample :
    (DepthModel.initModel ⟨false, false, false, true, []⟩ DMState.initial 5
      (some "bogus") "auto").1 = false ∧
    (DepthModel.initModel ⟨false, false, false, true, []⟩ DMState.initial 5
      (some "bogus") "auto").2.last_used ≠ DMState.initial.last_used := by
  decide

/-- C6 (amended): an unknown variant key makes `initialize` fail fast,
leaving the resident pipeline, current variant, device and mock-download
set unchanged — but `last_used` is refreshed to the call time, since the
code stamps it before the catalog check. A backend-instantiation throw
during any load or switch that actually instantiates — i.e. any call that
does not take the already-loaded-compatible no-op branch, whether the
manager was `Unloaded` or held a resident model that the call unloads
first — returns failure with the manager reverted to `Unloaded`: no
resident pipeline and no current variant, never half-initialized. -/
theorem C6_failure_policy (env : Env) (s : DMState) (now : ℚ)
    (model_key : Option String) (device_type : String) :
    (orDefaultKey model_key ∉ availableModels →
      DepthModel.initModel env s now model_key device_type =
        (false, { s with last_used := now })) ∧
    (env.mockDownloads = false → env.backendOk = false →
      orDefaultKey model_key ∈ availableModels →
      ¬(s.pipeline.isSome = true ∧
        s.current_model_key = some (orDefaultKey model_key) ∧
        ¬(device_type = "cpu" ∧ deviceIsGpu s.device = true) ∧
        ¬(device_type = "gpu" ∧ deviceIsGpu s.device = false)) →
      DepthModel.initModel env s now model_key device_type =
        (false, { s with
          last_used := now
          device := targetDevice device_type env.cudaAvailable env.mpsAvailable
          pipeline := none
          current_model_key := none })) := by
  constructor
  · intro hk
    simp [DepthModel.initModel, hk]
  · intro hmock hbk hk hnoop
    rcases hp : s.pipeline with - | r
    · simp [DepthModel.initModel, hk, hp, unload_current_model, hmock, hbk]
    · rw [hp] at hnoop
      simp only [Option.isSome_some, true_and] at hnoop
      simp [DepthModel.initModel, hk, hp, hnoop, unload_current_model,
        hmock, hbk]
      intro hA hcpu
      by_contra hcon
      apply hnoop
      refine ⟨hA, ?_, hcon⟩
      rintro ⟨hdt, hg⟩
      rw [hcpu hdt] at hg
      exact Bool.noConfusion hg

/-- Witness for C6 (amended): both failure paths at concrete inputs —
the unknown key `"bogus"`, and a backend throw while loading `"small"`
from `Unloaded`. -/
theorem C6_failure_policy_witness :
    (DepthModel.initModel ⟨false, false, false, false, []⟩ DMState.initial 5
      (some "bogus") "auto" = (false, { DMState.initial with last_used := 5 })) ∧
    (DepthModel.initModel ⟨false, false, false, false, []⟩ DMState.initial 5
      (some "small") "auto" = (false, { DMState.initial with
        last_used := 5
        device := targetDevice "auto" false false
        pipeline := none
        current_model_key := none })) :=
  ⟨(C6_failure_policy ⟨false, false, false, false, []⟩ DMState.initial 5
      (some "bogus") "auto").1 (by decide),
   (C6_failure_policy ⟨false, false, false, false, []⟩ DMState.initial 5
      (some "small") "auto").2 rfl rfl (by decide) (by decide)⟩

/-- C4 counterexample: with `gpu` requested and neither CUDA nor MPS
available, the first `switch_model` succeeds with the resolved device
(CPU fallback) recorded; the second call with identical arguments also
returns success, but *reloads*: the resident pipeline instance is
replaced, not left unchanged — even though re-resolving `gpu` would again
give CPU. -/
theorem C4_counterexample :
    (DepthModel.switch_model ⟨false, false, false, true, []⟩ DMState.initial 1
      "small" "gpu").1 = true ∧
    (DepthModel.switch_model ⟨false, false, false, true, []⟩ DMState.initial 1
      "small" "gpu").2.current_model_key = some "small" ∧
    (DepthModel.switch_model ⟨false, false, false, true, []⟩ DMState.initial 1
      "small" "gpu").2.device = targetDevice "gpu" false false ∧
    (DepthModel.switch_model ⟨false, false, false, true, []⟩
      (DepthModel.switch_model ⟨false, false, false, true, []⟩ DMState.initial 1
        "small" "gpu").2 2 "small" "gpu").1 = true ∧
    (DepthModel.switch_model ⟨false, false, false, true, []⟩
      (DepthModel.switch_model ⟨false, false, false, true, []⟩ DMState.initial 1
        "small" "gpu").2 2 "small" "gpu").2.pipeline ≠
      (DepthModel.switch_model ⟨false, false, false, true, []⟩ DMState.initial 1
        "small" "gpu").2.pipeline := by
  decide

/-- C4 (amended): a `switch_model` call is a success-returning no-op —
the resident instance, key and device are left unchanged, only
`last_used` is refreshed — exactly when the manager is already loaded
with the requested key and the resident device is compatible with the
request: not (`cpu` requested while on a GPU device) and not (`gpu`
requested while on a non-GPU device). In particular a second identical
call is idempotent in every case except a `gpu` request that fell back to
CPU, where the code reloads. -/
theorem C4_switch_idempotent (env : Env) (s : DMState) (now : ℚ)
    (model_key device_type : String)
    (hk : model_key ∈ availableModels)
    (hl : s.pipeline.isSome = true)
    (hc : s.current_model_key = some model_key)
    (h1 : ¬(device_type = "cpu" ∧ deviceIsGpu s.device = true))
    (h2 : ¬(device_type = "gpu" ∧ deviceIsGpu s.device = false)) :
    DepthModel.switch_model env s now model_key device_type =
      (true, { s with last_used := now }) := by
  have hne : model_key ≠ "" := by
    intro h; rw [h] at hk; revert hk; decide
  have hdef : orDefaultKey (some model_key) = model_key := by
    simp [orDefaultKey, hne]
  unfold DepthModel.switch_model DepthModel.initModel
  rw [hdef]
  simp [hk, hl, hc, h1, h2]

/-- Witness for C4 (amended): an `auto` re-switch to the already-resident
`"small"` model is a pure no-op, refreshing only `last_used`. -/
theorem C4_switch_idempotent_witness :
    DepthModel.switch_model ⟨false, false, false, true, []⟩
      { DMState.initial with
        pipeline := some ⟨0, "small"⟩
        current_model_key := some "small" } 7 "small" "auto" =
      (true, { { DMState.initial with
        pipeline := some ⟨0, "small"⟩
        current_model_key := some "small" } with last_used := 7 }) :=
  C4_switch_idempotent ⟨false, false, false, true, []⟩
    { DMState.initial with
      pipeline := some ⟨0, "small"⟩
      current_model_key := some "small" } 7 "small" "auto"
    (by decide) rfl rfl (by decide) (by decide)

/-- C2 counterexample: for eye frames of odd width 3, `SBS_HALF`
composition yields width `2 * (3 / 2) = 2`, not the claimed input
width 3. -/
theorem C2_counterexample :
    imgW (compose_sbs_frame [[1, 2, 3]] [[1, 2, 3]] "SBS_HALF") = 2 ∧
    (2 : Nat) ≠ 3 := by
  decide

/-- C2 (amended): for rectangular left/right eyes of width `w` and equal
height, every row of the `SBS_FULL` composition has width exactly `2 * w`
(native-resolution concatenation), and every row of the `SBS_HALF`
composition has width exactly `2 * (w / 2)` — each eye is downsampled to
`w / 2` (integer division) before concatenation, which equals `w` only
when `w` is even. -/
theorem C2_sbs_widths (left_eye right_eye : Img) (h w : Nat)
    (hL : rectangular left_eye h w) (hR : rectangular right_eye h w) :
    (∀ row ∈ compose_sbs_frame left_eye right_eye "SBS_FULL",
      row.length = 2 * w) ∧
    (∀ row ∈ compose_sbs_frame left_eye right_eye "SBS_HALF",
      row.length = 2 * (w / 2)) := by
  obtain ⟨hLlen, hLrow⟩ := hL
  obtain ⟨hRlen, hRrow⟩ := hR
  constructor
  · intro row hrow
    have := hstack_row_length hLrow hRrow row (by
      simpa [compose_sbs_frame] using hrow)
    omega
  · intro row hrow
    rcases left_eye with - | ⟨r0, rest⟩
    · simp [compose_sbs_frame, cvResize, hstack, imgH] at hrow
    · have hw : imgW (r0 :: rest) = w := hLrow r0 (List.mem_cons_self _ _)
      have hrow' : row ∈ hstack
          (cvResize (r0 :: rest) (w / 2) (imgH (r0 :: rest)))
          (cvResize right_eye (w / 2) (imgH (r0 :: rest))) := by
        simpa [compose_sbs_frame, hw] using hrow
      have := hstack_row_length
        (cvResize_row_length (r0 :: rest) (w / 2) (imgH (r0 :: rest)))
        (cvResize_row_length right_eye (w / 2) (imgH (r0 :: rest)))
        row hrow'
      omega

/-- Witness for C2 (amended): concrete `1 × 3` eyes give full width 6 and
half width 2. -/
theorem C2_sbs_widths_witness :
    rectangular [[1, 2, 3]] 1 3 ∧
    (∀ row ∈ compose_sbs_frame [[1, 2, 3]] [[1, 2, 3]] "SBS_FULL",
      row.length = 2 * 3) ∧
    (∀ row ∈ compose_sbs_frame [[1, 2, 3]] [[1, 2, 3]] "SBS_HALF",
      row.length = 2 * (3 / 2)) := by
  have hrect : rectangular [[1, 2, 3]] 1 3 := by
    unfold rectangular
    exact ⟨rfl, by decide⟩
  have h := C2_sbs_widths [[1, 2, 3]] [[1, 2, 3]] 1 3 hrect hrect
  exact ⟨hrect, h.1, h.2⟩

/-- C5: `predict` on an `Unloaded` manager stamps `last_used`, performs
exactly one load of the requested-or-default variant (the generation
counter advances by exactly one and the fresh instance carries the
requested key), and returns the backend's result for the image — the very
result a manager already `Loaded` with that variant returns (second
conjunct); a manager loaded with a different key than the (truthy)
requested one switches first, again with a single fresh load; and both
failure modes surface as errors rather than partially executing: a
lazy-load failure leaves the manager `Unloaded`, and a backend throw
during the switch from a `Loaded` manager (last conjunct) returns the
switch error with the old resident destroyed and the manager `Unloaded`
— no half-initialized state. -/
theorem C5_predict {Image R : Type} (env : Env) (infer : String → Image → R)
    (mockResult : Image → R) (s : DMState) (now : ℚ) (image : Image)
    (model_key : Option String)
    (hmock : env.mockDownloads = false)
    (hk : orDefaultKey model_key ∈ availableModels) :
    (env.backendOk = true → s.pipeline = none →
      DepthModel.predict env infer mockResult s now image model_key =
        (.ok (infer (orDefaultKey model_key) image),
         { s with
            last_used := now
            device := targetDevice "auto" env.cudaAvailable env.mpsAvailable
            pipeline := some ⟨s.nextGen, orDefaultKey model_key⟩
            nextGen := s.nextGen + 1
            current_model_key := some (orDefaultKey model_key) })) ∧
    (∀ g : Nat, s.pipeline = some ⟨g, orDefaultKey model_key⟩ →
      s.current_model_key = some (orDefaultKey model_key) →
      DepthModel.predict env infer mockResult s now image model_key =
        (.ok (infer (orDefaultKey model_key) image),
         { s with last_used := now })) ∧
    (∀ (r : Resident) (k cur : String), env.backendOk = true →
      model_key = some k → k ≠ "" → s.pipeline = some r →
      s.current_model_key = some cur → k ≠ cur →
      DepthModel.predict env infer mockResult s now image model_key =
        (.ok (infer k image),
         { s with
            last_used := now
            device := targetDevice "auto" env.cudaAvailable env.mpsAvailable
            pipeline := some ⟨s.nextGen, k⟩
            nextGen := s.nextGen + 1
            current_model_key := some k })) ∧
    (env.backendOk = false → s.pipeline = none →
      (DepthModel.predict env infer mockResult s now image model_key).1 =
        .error ("Failed to auto-initialize model: " ++ orDefaultKey model_key) ∧
      (DepthModel.predict env infer mockResult s now image model_key).2.pipeline
        = none) ∧
    (∀ (r : Resident) (k cur : String), env.backendOk = false →
      model_key = some k → k ≠ "" → s.pipeline = some r →
      s.current_model_key = some cur → k ≠ cur →
      (DepthModel.predict env infer mockResult s now image model_key).1 =
        .error ("Failed to switch to model: " ++ k) ∧
      (DepthModel.predict env infer mockResult s now image model_key).2.pipeline
        = none ∧
      (DepthModel.predict env infer mockResult s now image
        model_key).2.current_model_key = none) := by
  refine ⟨?_, ?_, ?_, ?_, ?_⟩
  · intro hok hp
    simp [DepthModel.predict, DepthModel.initModel, hp, hk, hmock, hok,
      unload_current_model, finishPredict, callPipeline]
  · intro g hp hc
    have htr : ¬(keyTruthy model_key = true ∧
        model_key ≠ (({ s with last_used := now } : DMState)).current_model_key) := by
      rintro ⟨h1, h2⟩
      cases model_key with
      | none => simp [keyTruthy] at h1
      | some k =>
        have hne : k ≠ "" := by simpa [keyTruthy] using h1
        have : orDefaultKey (some k) = k := by simp [orDefaultKey, hne]
        rw [this] at hc
        exact h2 (by simpa using hc.symm)
    simp [DepthModel.predict, hp, htr, finishPredict, callPipeline, hmock]
  · intro r k cur hok hmk hne hp hc hkc
    subst hmk
    have hdef : orDefaultKey (some k) = k := by simp [orDefaultKey, hne]
    rw [hdef] at hk
    have htr : keyTruthy (some k) = true ∧
        (some k : Option String) ≠
          (({ s with last_used := now } : DMState)).current_model_key := by
      refine ⟨by simpa [keyTruthy] using hne, ?_⟩
      simp only [hc]
      intro hcontra
      exact hkc (by simpa using hcontra)
    have hck : ¬(cur = k) := fun h => hkc h.symm
    simp [DepthModel.predict, hp, htr, DepthModel.switch_model,
      DepthModel.initModel, hdef, hk, hc, hkc, hck, hmock, hok,
      unload_current_model, finishPredict, callPipeline]
  · intro hok hp
    simp [DepthModel.predict, DepthModel.initModel, hp, hk, hmock, hok,
      unload_current_model, finishPredict]
  · intro r k cur hok hmk hne hp hc hkc
    subst hmk
    have hdef : orDefaultKey (some k) = k := by simp [orDefaultKey, hne]
    rw [hdef] at hk
    have htr : keyTruthy (some k) = true ∧
        (some k : Option String) ≠
          (({ s with last_used := now } : DMState)).current_model_key := by
      refine ⟨by simpa [keyTruthy] using hne, ?_⟩
      simp only [hc]
      intro hcontra
      exact hkc (by simpa using hcontra)
    have hck : ¬(cur = k) := fun h => hkc h.symm
    refine ⟨?_, ?_, ?_⟩ <;>
      simp [DepthModel.predict, hp, htr, DepthModel.switch_model,
        DepthModel.initModel, hdef, hk, hc, hkc, hck, hmock, hok,
        unload_current_model, finishPredict]

/-- Witness for C5: a lazy load on an unloaded manager at time 3 with the
default key, a backend mapping every image `n` to `n + 1`. -/
theorem C5_predict_witness :
    ((⟨false, false, false, true, []⟩ : Env).mockDownloads = false) ∧
    (orDefaultKey none ∈ availableModels) ∧
    ((⟨false, false, false, true, []⟩ : Env).backendOk = true) ∧
    DepthModel.predict (⟨false, false, false, true, []⟩ : Env)
      (fun _ (n : Nat) => n + 1) (fun n => n) DMState.initial 3 9 none =
      (.ok 10, { DMState.initial with
        last_used := 3
        device := targetDevice "auto" false false
        pipeline := some ⟨0, orDefaultKey none⟩
        nextGen := 1
        current_model_key := some (orDefaultKey none) }) :=
  ⟨rfl, by decide, rfl,
    (C5_predict ⟨false, false, false, true, []⟩ (fun _ (n : Nat) => n + 1)
      (fun n => n) DMState.initial 3 9 none rfl (by decide)).1 rfl rfl⟩

/-- C9: the code has no lock — the claimed mutual exclusion does not
exist, and the spec itself flags the unguarded monitor as the defect. A
concrete two-thread interleaving exhibits the race the claim says is
impossible: with `"small"` resident and `predict` having passed its
`_pipeline is None` checks at time 0, a monitor pass at `now = 1860`
(31 idle minutes > the 30-minute timeout) unloads the model, and the
resumed `predict` then evaluates `self._pipeline(image)` with
`_pipeline = None` — a `TypeError` crash (`predictFinish = none`). -/
theorem C9_monitor_predict_race :
    predictBegin { DMState.initial with
        pipeline := some ⟨0, "small"⟩
        current_model_key := some "small" } 0 =
      some { DMState.initial with
        pipeline := some ⟨0, "small"⟩
        current_model_key := some "small" } ∧
    predictFinish (monitor_tick { DMState.initial with
        pipeline := some ⟨0, "small"⟩
        current_model_key := some "small" } 1860) = none := by
  refine ⟨rfl, ?_⟩
  have h31 : (30 : ℚ) < 1860 / 60 := by norm_num
  simp [monitor_tick, predictFinish, unload_current_model, DMState.initial, h31]

/-- Bilinear sampling at any exact integer coordinate pair collapses to a
single (border-reflected) tap. -/
theorem bilinearSample_intCast (f : Img) (y x : Int) :
    bilinearSample f (x : ℚ) (y : ℚ) = pixelR f y x := by
  unfold bilinearSample
  rw [Int.floor_intCast, Int.floor_intCast]
  ring

/-- Reading back every pixel of a rectangular image reproduces it. -/
theorem map_pixel_eq_self (frame : Img) (h w : Nat)
    (hrect : rectangular frame h w) :
    ((List.range (imgH frame)).map fun (y : Nat) =>
      (List.range (imgW frame)).map fun (x : Nat) => pixel frame y x) =
      frame := by
  obtain ⟨hlen, hrow⟩ := hrect
  apply List.ext_getElem
  · simp [imgH]
  intro i h1 h2
  rw [List.getElem_map, List.getElem_range]
  have hmem : frame[i] ∈ frame := List.getElem_mem h2
  have hwi : frame[i].length = w := hrow _ hmem
  have hw0 : imgW frame = w := by
    cases frame with
    | nil => simp [imgH] at h2
    | cons r rest =>
      have : r ∈ r :: rest := List.mem_cons_self _ _
      simp [imgW, hrow r this]
  apply List.ext_getElem
  · simp [hw0, hwi]
  intro j h3 h4
  rw [List.getElem_map, List.getElem_range]
  have e1 : frame.getD i [] = frame[i] := by
    rw [List.getD_eq_getElem?_getD, List.getElem?_eq_getElem h2, Option.getD_some]
  unfold pixel
  rw [e1, List.getD_eq_getElem?_getD, List.getElem?_eq_getElem h4, Option.getD_some]

/-- The generated eye views, read pixel-wise: entry `(y, x)` of the left
(resp. right) eye is the bilinear sample at `x + displacement` (resp.
`x - displacement`). -/
theorem generate_stereo_pixel (frame depth_map : Img) (divergence : ℚ)
    (y x : Nat) (hy : y < imgH frame) (hx : x < imgW frame) :
    pixel (generate_stereo_pair_vectorized frame depth_map divergence).1 y x =
      bilinearSample frame
        ((x : ℚ) + displacementAt depth_map divergence y x) (y : ℚ) ∧
    pixel (generate_stereo_pair_vectorized frame depth_map divergence).2 y x =
      bilinearSample frame
        ((x : ℚ) - displacementAt depth_map divergence y x) (y : ℚ) := by
  have key : ∀ g : Nat → Nat → ℚ,
      pixel ((List.range (imgH frame)).map fun (yy : Nat) =>
        (List.range (imgW frame)).map fun (xx : Nat) => g yy xx) y x = g y x := by
    intro g
    have h1 : y < ((List.range (imgH frame)).map fun (yy : Nat) =>
        (List.range (imgW frame)).map fun (xx : Nat) => g yy xx).length := by
      simpa using hy
    have e1 : ((List.range (imgH frame)).map fun (yy : Nat) =>
        (List.range (imgW frame)).map fun (xx : Nat) => g yy xx).getD y [] =
        (List.range (imgW frame)).map fun (xx : Nat) => g y xx := by
      rw [List.getD_eq_getElem?_getD, List.getElem?_eq_getElem h1, Option.getD_some]
      simp
    have h2 : x < ((List.range (imgW frame)).map fun (xx : Nat) => g y xx).length := by
      simpa using hx
    unfold pixel
    rw [e1, List.getD_eq_getElem?_getD, List.getElem?_eq_getElem h2, Option.getD_some]
    simp
  exact ⟨key _, key _⟩

/-- C1 (amended): `divergence = 0` gives zero displacement everywhere and
left eye = right eye = the original frame exactly (bilinear resampling at
unshifted integer coordinates is the identity); and a perfectly uniform
depth map of value `d` gives the *constant* displacement
`(1 - d/255) * divergence` — zero displacement variance, but zero
displacement itself only when `divergence = 0` or `d = 255`, so the eyes
need not coincide. -/
theorem C1_degenerate (frame depth_map : Img) (h w : Nat) (d divergence : ℚ)
    (hrect : rectangular frame h w) :
    (divergence = 0 →
      (generate_stereo_pair_vectorized frame depth_map divergence).1 = frame ∧
      (generate_stereo_pair_vectorized frame depth_map divergence).2 = frame) ∧
    ((∀ y, y < imgH depth_map → ∀ x, x < imgW depth_map →
        pixel depth_map y x = d) →
      ∀ y, y < imgH depth_map → ∀ x, x < imgW depth_map →
        displacementAt depth_map divergence y x = (1 - d / 255) * divergence) := by
  constructor
  · rintro rfl
    have hzero : ∀ y x : Nat, displacementAt depth_map 0 y x = 0 := by
      intro y x; simp [displacementAt]
    have hleft : ((List.range (imgH frame)).map fun (y : Nat) =>
        (List.range (imgW frame)).map fun (x : Nat) =>
          bilinearSample frame ((x : ℚ) + displacementAt depth_map 0 y x)
            (y : ℚ)) = frame := by
      have step : ((List.range (imgH frame)).map fun (y : Nat) =>
          (List.range (imgW frame)).map fun (x : Nat) =>
            bilinearSample frame ((x : ℚ) + displacementAt depth_map 0 y x)
              (y : ℚ)) =
          (List.range (imgH frame)).map fun (y : Nat) =>
            (List.range (imgW frame)).map fun (x : Nat) => pixel frame y x := by
        apply List.map_congr_left
        intro y hy
        apply List.map_congr_left
        intro x hx
        rw [hzero, add_zero]
        exact bilinearSample_natCast frame y x (List.mem_range.mp hy)
          (List.mem_range.mp hx)
      rw [step]
      exact map_pixel_eq_self frame h w hrect
    have hright : ((List.range (imgH frame)).map fun (y : Nat) =>
        (List.range (imgW frame)).map fun (x : Nat) =>
          bilinearSample frame ((x : ℚ) - displacementAt depth_map 0 y x)
            (y : ℚ)) = frame := by
      have step : ((List.range (imgH frame)).map fun (y : Nat) =>
          (List.range (imgW frame)).map fun (x : Nat) =>
            bilinearSample frame ((x : ℚ) - displacementAt depth_map 0 y x)
              (y : ℚ)) =
          (List.range (imgH frame)).map fun (y : Nat) =>
            (List.range (imgW frame)).map fun (x : Nat) => pixel frame y x := by
        apply List.map_congr_left
        intro y hy
        apply List.map_congr_left
        intro x hx
        rw [hzero, sub_zero]
        exact bilinearSample_natCast frame y x (List.mem_range.mp hy)
          (List.mem_range.mp hx)
      rw [step]
      exact map_pixel_eq_self frame h w hrect
    exact ⟨by simpa [generate_stereo_pair_vectorized] using hleft,
      by simpa [generate_stereo_pair_vectorized] using hright⟩
  · intro huni y hy x hx
    rw [displacementAt, huni y hy x hx]

/-- C1 counterexample: a perfectly uniform depth map does *not* give zero
displacement or identical eyes. The pipeline's normalization maps the
uniform raw depth `[[5,5,5]]` to the constant-128 map (not 255); directly,
the uniform depth map `[[0,0,0]]` with `divergence = 1` gives constant
displacement 1, and on the frame `[[0,0,1]]` the generated left eye
(`[[0,1,0]]`) differs from the right eye (`[[0,0,0]]`). -/
theorem C1_counterexample :
    process_frame_depth [[5, 5, 5]] = [[128, 128, 128]] ∧
    displacementAt [[(0 : ℚ), 0, 0]] 1 0 1 = 1 ∧
    (generate_stereo_pair_vectorized [[0, 0, 1]] [[0, 0, 0]] 1).1 ≠
      (generate_stereo_pair_vectorized [[0, 0, 1]] [[0, 0, 0]] 1).2 := by
  have hpix0 : ∀ y x : Nat, pixel [[(0 : ℚ), 0, 0]] y x = 0 := by
    intro y x
    unfold pixel
    rcases y with - | y
    · rcases x with - | x
      · rfl
      · rcases x with - | x
        · rfl
        · rcases x with - | x
          · rfl
          · simp [List.getD]
    · simp [List.getD]
  have hdisp : ∀ y x : Nat, displacementAt [[(0 : ℚ), 0, 0]] 1 y x = 1 := by
    intro y x
    unfold displacementAt
    rw [hpix0]
    norm_num
  refine ⟨?_, by rw [hdisp], ?_⟩
  · have hmin : imgMin [[5, 5, 5]] = 5 := rfl
    have hmax : imgMax [[5, 5, 5]] = 5 := rfl
    have hcond : imgMax [[(5 : ℚ), 5, 5]] - imgMin [[(5 : ℚ), 5, 5]] <
        1 / 10 ^ 10 := by
      rw [hmax, hmin]; norm_num
    simp only [process_frame_depth]
    rw [if_pos hcond]
    rfl
  · have hL : pixel
        (generate_stereo_pair_vectorized [[0, 0, 1]] [[0, 0, 0]] 1).1 0 1 = 1 := by
      have hp := (generate_stereo_pixel [[0, 0, 1]] [[0, 0, 0]] 1 0 1
        (by decide) (by decide)).1
      rw [hp, hdisp]
      have c1 : (((1 : Nat) : ℚ) + 1) = ((2 : Int) : ℚ) := by push_cast; norm_num
      have c2 : (((0 : Nat) : ℚ)) = ((0 : Int) : ℚ) := by push_cast; norm_num
      rw [c1, c2, bilinearSample_intCast]
      decide
    have hR : pixel
        (generate_stereo_pair_vectorized [[0, 0, 1]] [[0, 0, 0]] 1).2 0 1 = 0 := by
      have hp := (generate_stereo_pixel [[0, 0, 1]] [[0, 0, 0]] 1 0 1
        (by decide) (by decide)).2
      rw [hp, hdisp]
      have c1 : (((1 : Nat) : ℚ) - 1) = ((0 : Int) : ℚ) := by push_cast; norm_num
      have c2 : (((0 : Nat) : ℚ)) = ((0 : Int) : ℚ) := by push_cast; norm_num
      rw [c1, c2, bilinearSample_intCast]
      decide
    intro heq
    rw [heq, hR] at hL
    exact one_ne_zero hL.symm

/-- Witness for C1 (amended): a `2 × 2` frame with uniform depth 7 and
`divergence = 0` reproduces the frame in both eyes, with the constant
displacement formula evaluating to 0. -/
theorem C1_degenerate_witness :
    rectangular [[1, 2], [3, 4]] 2 2 ∧
    ((generate_stereo_pair_vectorized [[1, 2], [3, 4]] [[7, 7], [7, 7]] 0).1 =
        [[1, 2], [3, 4]] ∧
      (generate_stereo_pair_vectorized [[1, 2], [3, 4]] [[7, 7], [7, 7]] 0).2 =
        [[1, 2], [3, 4]]) ∧
    (∀ y, y < imgH [[(7 : ℚ), 7], [7, 7]] →
      ∀ x, x < imgW [[(7 : ℚ), 7], [7, 7]] →
      displacementAt [[7, 7], [7, 7]] 0 y x = (1 - 7 / 255) * 0) := by
  have hrect : rectangular [[(1 : ℚ), 2], [3, 4]] 2 2 := ⟨rfl, by decide⟩
  have h := C1_degenerate [[1, 2], [3, 4]] [[7, 7], [7, 7]] 2 2 7 0 hrect
  exact ⟨hrect, h.1 rfl, h.2 (by decide)⟩

/-- A window index strictly below the window count starts strictly inside
the frame sequence. -/
theorem mul_lt_of_lt_numWindows {total bs k : Nat} (hbs : 0 < bs)
    (hk : k < numWindows total bs) : k * bs < total := by
  have h1 : (k + 1) * bs ≤ numWindows total bs * bs :=
    Nat.mul_le_mul_right bs hk
  have h2 : numWindows total bs * bs ≤ total + bs - 1 := by
    unfold numWindows
    exact Nat.div_mul_le_self _ _
  have h3 : k * bs + bs ≤ total + bs - 1 := by
    have : k * bs + bs = (k + 1) * bs := by ring
    omega
  rcases Nat.eq_zero_or_pos total with h0 | h0
  · exfalso
    subst h0
    have hz : numWindows 0 bs = 0 := by
      unfold numWindows
      have : bs - 1 < bs := by omega
      simp [Nat.div_eq_of_lt this]
    omega
  · have h4 := h3
    generalize k * bs = M at h4 ⊢
    omega

/-- The windows cover the whole frame sequence. -/
theorem le_numWindows_mul (total bs : Nat) (hbs : 0 < bs) :
    total ≤ numWindows total bs * bs := by
  unfold numWindows
  obtain ⟨r, hr, hsum⟩ : ∃ r, r < bs ∧
      bs * ((total + bs - 1) / bs) + r = total + bs - 1 :=
    ⟨_, Nat.mod_lt _ hbs, Nat.div_add_mod _ _⟩
  rw [Nat.mul_comm]
  generalize bs * ((total + bs - 1) / bs) = M at hsum ⊢
  omega

/-- Concatenating the first `k` batch windows yields the frame indices
below `min (k * batch_size) total`, in order. -/
theorem batchWindows_flatten_aux (total bs : Nat) (hbs : 0 < bs) :
    ∀ k, k ≤ numWindows total bs →
      (((List.range k).map fun i =>
        (List.range (min (i * bs + bs) total - i * bs)).map
          (i * bs + ·)).flatten = List.range (min (k * bs) total)) := by
  intro k
  induction k with
  | zero => simp
  | succ n ih =>
    intro hk
    rw [List.range_succ, List.map_append, List.flatten_append,
      ih (Nat.le_of_succ_le hk)]
    simp only [List.map_cons, List.map_nil, List.flatten_cons,
      List.flatten_nil, List.append_nil]
    have h1 : n * bs < total := mul_lt_of_lt_numWindows hbs hk
    have hmin1 : min (n * bs) total = n * bs := Nat.min_eq_left (Nat.le_of_lt h1)
    have h3 : (n + 1) * bs = n * bs + bs := by ring
    have hsplit : min ((n + 1) * bs) total =
        n * bs + (min (n * bs + bs) total - n * bs) := by omega
    rw [hmin1, hsplit, List.range_add]

/-- Reclamation events in the trace: one per window when CUDA is
available, none otherwise. -/
theorem count_reclaim_blocks (ws : List (List Nat)) (cuda : Bool) :
    ((ws.map fun w => w.map BatchEvent.process ++
      if cuda then [BatchEvent.reclaim] else []).flatten).count .reclaim =
      if cuda then ws.length else 0 := by
  induction ws with
  | nil => simp
  | cons w ws ih =>
    simp only [List.map_cons, List.flatten_cons, List.count_append, ih]
    have h1 : (w.map BatchEvent.process).count .reclaim = 0 := by
      rw [List.count_eq_zero]
      intro hmem
      obtain ⟨i, -, hcontra⟩ := List.mem_map.mp hmem
      exact BatchEvent.noConfusion hcontra
    cases cuda <;> simp [h1] <;> omega

/-- C8 counterexample: a 10-frame video with `batch_size = 3` does yield
4 windows of sizes (3,3,3,1), but on a machine where
`torch.cuda.is_available()` is false the reclamation call is skipped at
every window boundary — 0 invocations, not the claimed 4 (one per
boundary). -/
theorem C8_counterexample :
    (batchWindows 10 3).map List.length = [3, 3, 3, 1] ∧
    (processSbsTrace 10 3 false).count .reclaim = 0 ∧ (0 : Nat) ≠ 4 := by
  decide

/-- C8 (amended): with `batch_size > 0`, the loop partitions the `total`
frame indices into `⌈total / batch_size⌉` consecutive windows — their
concatenation is exactly `0, 1, …, total - 1` in ascending order, every
window but the last has exactly `batch_size` frames, and windows follow
one another sequentially in the trace; the device-memory reclamation call
runs exactly once per window boundary when CUDA is available, and — the
correction — zero times when it is not (the call sits under a
`torch.cuda.is_available()` guard). -/
theorem C8_batch_partition (total batch_size : Nat) (cuda : Bool)
    (hbs : 0 < batch_size) :
    (batchWindows total batch_size).length =
      (total + batch_size - 1) / batch_size ∧
    (batchWindows total batch_size).flatten = List.range total ∧
    (∀ window ∈ (batchWindows total batch_size).dropLast,
      window.length = batch_size) ∧
    (processSbsTrace total batch_size cuda).count .reclaim =
      (if cuda then (batchWindows total batch_size).length else 0) := by
  have hwin : batchWindows total batch_size =
      (List.range (numWindows total batch_size)).map fun i =>
        (List.range (min (i * batch_size + batch_size) total -
          i * batch_size)).map (i * batch_size + ·) := by
    unfold batchWindows batchStarts
    rw [List.map_map]
    rfl
  refine ⟨by simp [batchWindows, batchStarts, numWindows], ?_, ?_, ?_⟩
  · rw [hwin, batchWindows_flatten_aux total batch_size hbs _ le_rfl,
      Nat.min_eq_right (le_numWindows_mul total batch_size hbs)]
  · intro window hw
    rw [hwin] at hw
    rcases hn : numWindows total batch_size with - | n
    · rw [hn] at hw
      simp at hw
    · rw [hn, List.range_succ, List.map_append] at hw
      simp only [List.map_cons, List.map_nil, List.dropLast_concat] at hw
      obtain ⟨i, hi, rfl⟩ := List.mem_map.mp hw
      have hi' : i < n := List.mem_range.mp hi
      have hlt : (i + 1) * batch_size < total := by
        apply mul_lt_of_lt_numWindows hbs
        omega
      have : min (i * batch_size + batch_size) total =
          i * batch_size + batch_size := by
        have : (i + 1) * batch_size = i * batch_size + batch_size := by ring
        omega
      simp [this]
  · have : processSbsTrace total batch_size cuda =
        ((batchWindows total batch_size).map fun w =>
          w.map BatchEvent.process ++
            if cuda then [BatchEvent.reclaim] else []).flatten := rfl
    rw [this, count_reclaim_blocks]

/-- Witness for C8 (amended): the 10-frame, batch-size-3 scenario with
CUDA available — 4 windows, frames 0–9 in order, 4 reclamations. -/
theorem C8_batch_partition_witness :
    (0 : Nat) < 3 ∧
    (batchWindows 10 3).length = (10 + 3 - 1) / 3 ∧
    (batchWindows 10 3).flatten = List.range 10 ∧
    (∀ window ∈ (batchWindows 10 3).dropLast, window.length = 3) ∧
    (processSbsTrace 10 3 true).count .reclaim =
      (if true then (batchWindows 10 3).length else 0) := by
  have h := C8_batch_partition 10 3 true (by decide)
  exact ⟨by decide, h.1, h.2.1, h.2.2.1, h.2.2.2⟩
